import Mathlib

/-!
Shallow embedding of the smart-predictive-maintenance-assistant server
(Node.js / Express / Sequelize) for verification.

Embedded code:
  - server/services/mqttService.js : handleMessage, processSensorData,
    checkForAlerts (the ingestion and alerting pipeline);
  - server/models (models/index.js) : the Equipment, SensorReading and Alert
    records with their documented defaults;
  - server/routes/analytics.js : calculateHealthScore;
  - server/routes/equipment.js : calculateHealthScore, generatePredictions.

Modelling conventions:
  - JS numbers are rationals; a JS float read from JSON is never NaN, so plain
    rationals suffice in the ingestion pipeline.  generatePredictions can
    produce NaN and Infinity, so it is given a dedicated JsVal type below.
  - A field that can be absent (undefined in a payload, SQL NULL on a stored
    row) is an Option.  JS truthiness on a number is "nonzero"; truthiness of
    an absent field is false.
  - The database tables are lists of records in a DBState; a sequelize findOne
    is a List.find? (first match), create appends, update rewrites in place.
  - Timestamps are integers (milliseconds since the epoch).
  - The human-readable message text of an alert is display-only string
    interpolation in the source and is not modelled; the structured metadata
    that identifies an alert (type, title, values, thresholds) is.
-/

namespace PredMaint

/-- Equipment record (models/index.js).  Threshold defaults are the documented
defaultValue of each column: maxTemperature 80, maxVibration 10,
maxPressure 100, minPressure 10. -/
structure Equipment where
  id : String
  name : String
  maxTemperature : ℚ := 80
  maxVibration : ℚ := 10
  maxPressure : ℚ := 100
  minPressure : ℚ := 10
deriving DecidableEq

/-- SensorReading record (models/index.js).  All metric columns are nullable;
none models SQL NULL / JS undefined. -/
structure SensorReading where
  id : Nat
  equipmentId : String
  timestamp : Int
  temperature : Option ℚ := none
  vibration : Option ℚ := none
  pressure : Option ℚ := none
  humidity : Option ℚ := none
  electricalCurrent : Option ℚ := none
  voltage : Option ℚ := none
  rpm : Option ℚ := none
  powerConsumption : Option ℚ := none
  additionalMetrics : List (String × ℚ) := []
deriving DecidableEq

/-- Structured alert metadata as built by checkForAlerts. -/
structure AlertMetadata where
  sensorType : String
  value : ℚ
  threshold : Option ℚ := none
  minThreshold : Option ℚ := none
  maxThreshold : Option ℚ := none
  readingId : Nat
deriving DecidableEq

/-- Alert record (models/index.js).  Alert.create is called without a status,
so the column default, active, applies. -/
structure Alert where
  equipmentId : String
  type : String
  title : String
  status : String := "active"
  metadata : AlertMetadata
deriving DecidableEq

/-- Incoming MQTT JSON payload: the fields the service reads from the parsed
object.  none models a field absent from the JSON. -/
structure SensorPayload where
  timestamp : Option Int := none
  value : Option ℚ := none
  temperature : Option ℚ := none
  vibration : Option ℚ := none
  pressure : Option ℚ := none
  humidity : Option ℚ := none
  current : Option ℚ := none
  voltage : Option ℚ := none
  power : Option ℚ := none
  rpm : Option ℚ := none
  metrics : Option (List (String × ℚ)) := none
deriving DecidableEq

/-- The database state touched by the ingestion pipeline. -/
structure DBState where
  equipment : List Equipment := []
  readings : List SensorReading := []
  alerts : List Alert := []
  nextReadingId : Nat := 0
deriving DecidableEq

/-- JS expression a or-else b on optional numbers: a when truthy (present and
nonzero), else b. -/
def jsOr (a b : Option ℚ) : Option ℚ :=
  match a with
  | some x => if x = 0 then b else some x
  | none => b

/-- JS truthiness of an optional number: false for absent, false for 0. -/
def jsTruthy : Option ℚ → Bool
  | some x => x != 0
  | none => false

/-- JS String.prototype.split on the slash character, structurally recursive
so the kernel can evaluate it (split never returns an empty list; an empty
input gives one empty segment, as in JS). -/
def splitSlash (cs : List Char) : List (List Char) :=
  match cs with
  | [] => [[]]
  | c :: rest =>
    let r := splitSlash rest
    if c = '/' then [] :: r
    else
      match r with
      | [] => [[c]]
      | h :: t => (c :: h) :: t

/-- topic.split(sep) with sep the slash, as a list of strings.  Indexing past
the end of the JS array yields undefined, which equipment lookup and the
sensor-type switch both treat like an unknown id or type; the model uses the
empty string as that out-of-range default. -/
def topicParts (topic : String) : List String :=
  (splitSlash topic.toList).map (fun l => String.mk l)

/-- Timestamp selection in processSensorData:
data.timestamp is used when truthy, else the ingestion time now.  A numeric
timestamp of exactly 0 is falsy in JS and falls back to now. -/
def ingestTimestamp (data : SensorPayload) (now : Int) : Int :=
  match data.timestamp with
  | some t => if t = 0 then now else t
  | none => now

/-- The sequelize findOne of processSensorData: the first stored reading for
this equipment whose timestamp lies within 5000 ms of the new timestamp. -/
def findReading (readings : List SensorReading) (eid : String) (ts : Int) :
    Option SensorReading :=
  readings.find? fun r =>
    r.equipmentId == eid &&
      decide (ts - 5000 ≤ r.timestamp) && decide (r.timestamp ≤ ts + 5000)

/-- The switch on sensorType in processSensorData, as the field update it
contributes to updateData; none is the default branch (unknown sensor type,
processSensorData returns null). -/
def metricUpdate (sensorType : String) (data : SensorPayload) :
    Option (SensorReading → SensorReading) :=
  if sensorType = "temperature" then
    some fun r => { r with temperature := jsOr data.value data.temperature }
  else if sensorType = "vibration" then
    some fun r => { r with vibration := jsOr data.value data.vibration }
  else if sensorType = "pressure" then
    some fun r => { r with pressure := jsOr data.value data.pressure }
  else if sensorType = "humidity" then
    some fun r => { r with humidity := jsOr data.value data.humidity }
  else if sensorType = "electrical" then
    some fun r =>
      { r with electricalCurrent := data.current, voltage := data.voltage,
               powerConsumption := data.power }
  else if sensorType = "performance" then
    some fun r =>
      { r with rpm := data.rpm, additionalMetrics := data.metrics.getD [] }
  else
    none

/-- The six sensor types the service maps to database fields. -/
def supportedSensorTypes : List String :=
  ["temperature", "vibration", "pressure", "humidity", "electrical", "performance"]

/-- A reading row holding only the always-set updateData fields equipmentId
and timestamp, as created when no reading exists in the window. -/
def freshReading (id : Nat) (eid : String) (ts : Int) : SensorReading :=
  { id := id, equipmentId := eid, timestamp := ts }

/-- processSensorData (mqttService.js lines 111-170): pick the timestamp,
look for an existing reading within the 5 second window, map the sensor type
to its field update; update the found row or create a new one.  Returns the
new database state and the stored reading (none when the sensor type is
unknown, matching the null return of the source). -/
def processSensorData (st : DBState) (equipmentId sensorType : String)
    (data : SensorPayload) (now : Int) : DBState × Option SensorReading :=
  let timestamp := ingestTimestamp data now
  let existing := findReading st.readings equipmentId timestamp
  match metricUpdate sensorType data with
  | none => (st, none)
  | some upd =>
    match existing with
    | some r0 =>
      let updated := upd { r0 with equipmentId := equipmentId, timestamp := timestamp }
      ({ st with
          readings := st.readings.map fun r => if r.id == r0.id then updated else r },
        some updated)
    | none =>
      let created := upd (freshReading st.nextReadingId equipmentId timestamp)
      ({ st with
          readings := st.readings ++ [created],
          nextReadingId := st.nextReadingId + 1 },
        some created)

/-- Temperature candidate alert (checkForAlerts lines 177-190): guarded by JS
truthiness of the field, then strict greater-than against maxTemperature. -/
def tempAlerts (equipment : Equipment) (r : SensorReading) : List Alert :=
  match r.temperature with
  | some t =>
    if t ≠ 0 ∧ t > equipment.maxTemperature then
      [{ equipmentId := equipment.id, type := "critical",
         title := "High Temperature Alert",
         metadata := { sensorType := "temperature", value := t,
                       threshold := some equipment.maxTemperature,
                       readingId := r.id } }]
    else []
  | none => []

/-- Vibration candidate alert (checkForAlerts lines 192-206). -/
def vibAlerts (equipment : Equipment) (r : SensorReading) : List Alert :=
  match r.vibration with
  | some v =>
    if v ≠ 0 ∧ v > equipment.maxVibration then
      [{ equipmentId := equipment.id, type := "warning",
         title := "High Vibration Alert",
         metadata := { sensorType := "vibration", value := v,
                       threshold := some equipment.maxVibration,
                       readingId := r.id } }]
    else []
  | none => []

/-- Pressure candidate alert (checkForAlerts lines 208-225): truthiness guard,
then out-of-band test (strictly above maxPressure or strictly below
minPressure). -/
def pressureAlerts (equipment : Equipment) (r : SensorReading) : List Alert :=
  match r.pressure with
  | some p =>
    if p ≠ 0 then
      if p > equipment.maxPressure ∨ p < equipment.minPressure then
        [{ equipmentId := equipment.id, type := "warning",
           title := "Pressure Out of Range",
           metadata := { sensorType := "pressure", value := p,
                         minThreshold := some equipment.minPressure,
                         maxThreshold := some equipment.maxPressure,
                         readingId := r.id } }]
      else []
    else []
  | none => []

/-- The alerts array built by checkForAlerts before the dedup loop, in push
order: temperature, vibration, pressure. -/
def candidateAlerts (equipment : Equipment) (r : SensorReading) : List Alert :=
  tempAlerts equipment r ++ vibAlerts equipment r ++ pressureAlerts equipment r

/-- The findOne predicate of the dedup loop: an existing alert with the same
equipmentId, type and title whose status is active. -/
def sameActiveKey (a ex : Alert) : Bool :=
  ex.equipmentId == a.equipmentId && ex.type == a.type &&
    ex.title == a.title && ex.status == "active"

/-- One iteration of the alert-creation loop (checkForAlerts lines 228-250):
look for an active alert with the same key; create only when none exists. -/
def insertAlert (alerts : List Alert) (a : Alert) : List Alert :=
  match alerts.find? (sameActiveKey a) with
  | some _ => alerts
  | none => alerts ++ [a]

/-- checkForAlerts (mqttService.js lines 172-251): build the candidate list
from the reading and thresholds, then run the dedup-and-create loop. -/
def checkForAlerts (st : DBState) (equipment : Equipment) (r : SensorReading) :
    DBState :=
  { st with alerts := (candidateAlerts equipment r).foldl insertAlert st.alerts }

/-- handleMessage (mqttService.js lines 79-109).  The payload argument is the
result of JSON.parse: none when parsing throws, in which case the outer catch
swallows the error and the state is unchanged.  Otherwise: split the topic,
look up the equipment (drop the message when unknown), process the sensor
data, and check for alerts when a reading was stored. -/
def handleMessage (st : DBState) (topic : String)
    (payload : Option SensorPayload) (now : Int) : DBState :=
  match payload with
  | none => st
  | some data =>
    let parts := topicParts topic
    let equipmentId := parts.getD 1 ""
    let sensorType := parts.getD 2 ""
    match st.equipment.find? (fun e => e.id == equipmentId) with
    | none => st
    | some equipment =>
      match processSensorData st equipmentId sensorType data now with
      | (st1, none) => st1
      | (st1, some sensorReading) => checkForAlerts st1 equipment sensorReading

/-- JS relational comparison a greater-than b where the left side is a stored
row field: a SQL NULL arrives as JS null, which the comparison coerces to 0. -/
def nullGT (a : Option ℚ) (b : ℚ) : Bool := decide (a.getD 0 > b)

/-- JS relational comparison a less-than b with null coerced to 0. -/
def nullLT (a : Option ℚ) (b : ℚ) : Bool := decide (a.getD 0 < b)

namespace Analytics

/-- calculateHealthScore from server/routes/analytics.js (lines 294-317):
start at 100, subtract tiered penalties for temperature (20 above max, 10
above 90 percent of max), vibration (25 above max, 10 above 80 percent) and
out-of-band pressure (15), then clamp to 0..100.  An empty reading list gives
the default score 50. -/
def calculateHealthScore (readings : List SensorReading) (equipment : Equipment) : ℚ :=
  match readings with
  | [] => 50
  | latest :: _ =>
    let score : ℚ := 100
    let score :=
      if nullGT latest.temperature equipment.maxTemperature then score - 20
      else if nullGT latest.temperature (equipment.maxTemperature * (9 / 10)) then score - 10
      else score
    let score :=
      if nullGT latest.vibration equipment.maxVibration then score - 25
      else if nullGT latest.vibration (equipment.maxVibration * (4 / 5)) then score - 10
      else score
    let score :=
      if nullGT latest.pressure equipment.maxPressure ||
          nullLT latest.pressure equipment.minPressure then score - 15
      else score
    max 0 (min 100 score)

end Analytics

/-- JS double for the prediction helper, where NaN and the infinities can
arise: num is an ordinary finite value. -/
inductive JsVal where
  | num : ℚ → JsVal
  | nan : JsVal
  | posInf : JsVal
  | negInf : JsVal
deriving DecidableEq

/-- JS addition: NaN propagates; opposite infinities give NaN. -/
def jsAdd : JsVal → JsVal → JsVal
  | .nan, _ => .nan
  | _, .nan => .nan
  | .posInf, .negInf => .nan
  | .negInf, .posInf => .nan
  | .posInf, _ => .posInf
  | _, .posInf => .posInf
  | .negInf, _ => .negInf
  | _, .negInf => .negInf
  | .num a, .num b => .num (a + b)

/-- JS unary minus. -/
def jsNeg : JsVal → JsVal
  | .num a => .num (-a)
  | .nan => .nan
  | .posInf => .negInf
  | .negInf => .posInf

/-- JS subtraction. -/
def jsSub (a b : JsVal) : JsVal := jsAdd a (jsNeg b)

/-- JS multiplication: NaN propagates; infinity times zero is NaN. -/
def jsMul : JsVal → JsVal → JsVal
  | .nan, _ => .nan
  | _, .nan => .nan
  | .num a, .num b => .num (a * b)
  | .posInf, .posInf => .posInf
  | .posInf, .negInf => .negInf
  | .negInf, .posInf => .negInf
  | .negInf, .negInf => .posInf
  | .posInf, .num b => if b = 0 then .nan else if 0 < b then .posInf else .negInf
  | .num a, .posInf => if a = 0 then .nan else if 0 < a then .posInf else .negInf
  | .negInf, .num b => if b = 0 then .nan else if 0 < b then .negInf else .posInf
  | .num a, .negInf => if a = 0 then .nan else if 0 < a then .negInf else .posInf

/-- JS division: 0/0 is NaN, nonzero/0 is a signed infinity (the model has a
single zero, so the sign of a zero divisor is taken as positive), finite over
infinite is 0, infinite over infinite is NaN. -/
def jsDiv : JsVal → JsVal → JsVal
  | .nan, _ => .nan
  | _, .nan => .nan
  | .num a, .num b =>
    if b = 0 then (if a = 0 then .nan else if 0 < a then .posInf else .negInf)
    else .num (a / b)
  | .num _, .posInf => .num 0
  | .num _, .negInf => .num 0
  | .posInf, .num b => if 0 ≤ b then .posInf else .negInf
  | .negInf, .num b => if 0 ≤ b then .negInf else .posInf
  | .posInf, _ => .nan
  | .negInf, _ => .nan

/-- Math.min of two values: NaN wins. -/
def jsMin : JsVal → JsVal → JsVal
  | .nan, _ => .nan
  | _, .nan => .nan
  | .num a, .num b => .num (min a b)
  | .negInf, _ => .negInf
  | _, .negInf => .negInf
  | .posInf, b => b
  | a, .posInf => a

/-- Math.max of two values: NaN wins. -/
def jsMax : JsVal → JsVal → JsVal
  | .nan, _ => .nan
  | _, .nan => .nan
  | .num a, .num b => .num (max a b)
  | .posInf, _ => .posInf
  | _, .posInf => .posInf
  | .negInf, b => b
  | a, .negInf => a

/-- JS strict greater-than against a finite literal: false when the left side
is NaN. -/
def jsGtNum (a : JsVal) (b : ℚ) : Bool :=
  match a with
  | .num x => decide (x > b)
  | .nan => false
  | .posInf => true
  | .negInf => false

/-- Math.round: half-up toward positive infinity on finite values. -/
def jsRound : JsVal → JsVal
  | .num x => .num (⌊x + 1 / 2⌋ : ℤ)
  | .nan => .nan
  | .posInf => .posInf
  | .negInf => .negInf

/-- Math.floor. -/
def jsFloor : JsVal → JsVal
  | .num x => .num (⌊x⌋ : ℤ)
  | .nan => .nan
  | .posInf => .posInf
  | .negInf => .negInf

/-- A stored row field used in arithmetic: SQL NULL arrives as JS null, which
numeric addition coerces to 0. -/
def nullToJs : Option ℚ → JsVal
  | some x => .num x
  | none => .num 0

/-- The object generatePredictions returns.  nextMaintenanceDate is the day
index of moment-now plus the computed offset; it is NaN (an invalid date)
whenever the offset is. -/
structure PredictionResult where
  failureProbability : JsVal
  remainingUsefulLife : JsVal
  nextMaintenanceDate : JsVal
  riskLevel : String
  confidence : ℚ
  factors : List (String × JsVal × String)
deriving DecidableEq

namespace EquipmentRoutes

/-- calculateHealthScore from server/routes/equipment.js (lines 506-532),
transcribed from its own source text; it is textually the same computation as
the analytics copy. -/
def calculateHealthScore (readings : List SensorReading) (equipment : Equipment) : ℚ :=
  match readings with
  | [] => 50
  | latest :: _ =>
    let score : ℚ := 100
    let score :=
      if nullGT latest.temperature equipment.maxTemperature then score - 20
      else if nullGT latest.temperature (equipment.maxTemperature * (9 / 10)) then score - 10
      else score
    let score :=
      if nullGT latest.vibration equipment.maxVibration then score - 25
      else if nullGT latest.vibration (equipment.maxVibration * (4 / 5)) then score - 10
      else score
    let score :=
      if nullGT latest.pressure equipment.maxPressure ||
          nullLT latest.pressure equipment.minPressure then score - 15
      else score
    max 0 (min 100 score)

/-- generatePredictions from server/routes/equipment.js (lines 590-618):
average temperature and vibration over the history by dividing the reduce
sums by historicalData.length with no emptiness guard, scale into risks and a
failure probability, derive the risk level by threshold tests, and return a
fixed confidence of 85.  now is the current day index used by the
moment-based maintenance date. -/
def generatePredictions (historicalData : List SensorReading)
    (equipment : Equipment) (now : ℚ) : PredictionResult :=
  let avgTemperature :=
    jsDiv (historicalData.foldl (fun sum reading => jsAdd sum (nullToJs reading.temperature))
            (.num 0))
      (.num historicalData.length)
  let avgVibration :=
    jsDiv (historicalData.foldl (fun sum reading => jsAdd sum (nullToJs reading.vibration))
            (.num 0))
      (.num historicalData.length)
  let tempRisk := jsDiv avgTemperature (.num equipment.maxTemperature)
  let vibrationRisk := jsDiv avgVibration (.num equipment.maxVibration)
  let failureProbability :=
    jsMin (.num 100) (jsMul (jsAdd tempRisk vibrationRisk) (.num 50))
  let riskLevel :=
    if jsGtNum failureProbability 70 then "high"
    else if jsGtNum failureProbability 40 then "medium"
    else "low"
  let remainingUsefulLife :=
    jsMax (.num 1) (jsSub (.num 365) (jsMul failureProbability (.num (365 / 100))))
  let nextMaintenanceDate :=
    jsAdd (.num now) (jsFloor (jsMul remainingUsefulLife (.num (4 / 5))))
  { failureProbability := jsRound failureProbability,
    remainingUsefulLife := jsRound remainingUsefulLife,
    nextMaintenanceDate := nextMaintenanceDate,
    riskLevel := riskLevel,
    confidence := 85,
    factors :=
      [("Temperature Trend", jsMul tempRisk (.num 100), "increasing"),
       ("Vibration Pattern", jsMul vibrationRisk (.num 100), "stable")] }

end EquipmentRoutes

/-! Concrete fixtures used by the scenario theorems and witnesses. -/

/-- Equipment eq-1 with the documented threshold defaults
(maxTemperature 80, maxVibration 10, maxPressure 100, minPressure 10). -/
def pumpEquip : Equipment := { id := "eq-1", name := "Pump A" }

/-- A temperature payload carrying a value and a timestamp. -/
def tempPayload (v : ℚ) (ts : Int) : SensorPayload :=
  { timestamp := some ts, value := some v }

/-- Initial state holding only equipment eq-1. -/
def c2Init : DBState := { equipment := [pumpEquip] }

/-- The C2 reading stream: values with timestamps spaced 10 seconds apart so
no two readings coalesce. -/
def c2Stream : List (ℚ × Int) :=
  [(82, 10000), (83, 20000), (81, 30000), (79, 40000), (78, 50000), (77, 60000)]

/-- The state after delivering the whole C2 stream in order. -/
def c2State : DBState :=
  c2Stream.foldl
    (fun st p =>
      handleMessage st "sensors/eq-1/temperature" (some (tempPayload p.1 p.2)) p.2)
    c2Init

/-- The payload of the C6 scenario message. -/
def c6Payload : SensorPayload := { value := some 5 }

/-- A payload whose timestamp field is present but exactly 0. -/
def zeroTsPayload : SensorPayload := { timestamp := some 0, value := some 42 }

/-- An equipment profile whose pressure band is inverted
(maxPressure 5 below minPressure 10). -/
def invertedEquip : Equipment :=
  { id := "eq-2", name := "Gauge", maxPressure := 5, minPressure := 10 }

/-- A reading whose pressure equals the inverted profile maxPressure. -/
def invertedReading : SensorReading :=
  { id := 0, equipmentId := "eq-2", timestamp := 0, pressure := some 5 }

/-- A reading whose temperature, vibration and pressure are all exactly 0. -/
def zeroReading : SensorReading :=
  { id := 0, equipmentId := "eq-1", timestamp := 0,
    temperature := some 0, vibration := some 0, pressure := some 0 }

/-- A reading with temperature exactly at the pumpEquip maximum. -/
def atMaxTempReading : SensorReading :=
  { id := 0, equipmentId := "eq-1", timestamp := 0, temperature := some 80 }

/-- A reading with vibration exactly at the pumpEquip maximum. -/
def atMaxVibReading : SensorReading :=
  { id := 0, equipmentId := "eq-1", timestamp := 0, vibration := some 10 }

/-- A reading with pressure exactly at the pumpEquip maximum. -/
def atMaxPressureReading : SensorReading :=
  { id := 0, equipmentId := "eq-1", timestamp := 0, pressure := some 100 }

/-- A reading with pressure exactly at the pumpEquip minimum. -/
def atMinPressureReading : SensorReading :=
  { id := 0, equipmentId := "eq-1", timestamp := 0, pressure := some 10 }

/-- A reading carrying no metric at all. -/
def bareReading : SensorReading :=
  { id := 0, equipmentId := "eq-1", timestamp := 0 }

/-- A stored reading used as the coalescing target of the C7 witness. -/
def mergeBase : SensorReading :=
  { id := 0, equipmentId := "eq-1", timestamp := 1000, pressure := some 50 }

/-- State holding equipment eq-1 and one stored reading at timestamp 1000. -/
def mergeState : DBState :=
  { equipment := [pumpEquip], readings := [mergeBase], nextReadingId := 1 }

/-- A temperature payload 1 second after mergeBase, inside the 5 s window. -/
def mergePayload : SensorPayload := { timestamp := some 2000, value := some 30 }

/-- The field update the temperature branch contributes for mergePayload. -/
def mergeUpd : SensorReading → SensorReading :=
  fun r => { r with temperature := jsOr mergePayload.value mergePayload.temperature }

/-- An already active high-temperature alert for eq-1. -/
def seedAlert : Alert :=
  { equipmentId := "eq-1", type := "critical", title := "High Temperature Alert",
    metadata := { sensorType := "temperature", value := 90, threshold := some 80,
                  readingId := 0 } }

/-- State holding equipment eq-1 and one active alert. -/
def c1State : DBState := { equipment := [pumpEquip], alerts := [seedAlert] }

/-- The dedup invariant: no two alerts in the table are both active with the
same (equipmentId, type, title) key. -/
def ActiveKeyUnique (alerts : List Alert) : Prop :=
  alerts.Pairwise fun a b =>
    ¬(a.status = "active" ∧ b.status = "active" ∧
      a.equipmentId = b.equipmentId ∧ a.type = b.type ∧ a.title = b.title)

instance (alerts : List Alert) : Decidable (ActiveKeyUnique alerts) := by
  unfold ActiveKeyUnique
  infer_instance

/-! Helper lemmas. -/

theorem processSensorData_fst_alerts (st : DBState) (eid s : String)
    (data : SensorPayload) (now : Int) :
    (processSensorData st eid s data now).1.alerts = st.alerts := by
  simp only [processSensorData]
  cases metricUpdate s data with
  | none => rfl
  | some upd =>
    cases findReading st.readings eid (ingestTimestamp data now) with
    | some r0 => rfl
    | none => rfl

theorem insertAlert_preserves (l : List Alert) (a : Alert)
    (h : ActiveKeyUnique l) : ActiveKeyUnique (insertAlert l a) := by
  unfold insertAlert
  cases hf : l.find? (sameActiveKey a) with
  | some ex => exact h
  | none =>
    have hnone : ∀ x ∈ l, ¬(sameActiveKey a x = true) := fun x hx =>
      List.find?_eq_none.mp hf x hx
    rw [ActiveKeyUnique, List.pairwise_append]
    refine ⟨h, List.pairwise_singleton _ _, ?_⟩
    intro x hx b hb
    rw [List.mem_singleton] at hb
    subst hb
    rintro ⟨hxa, haa, he, hty, hti⟩
    exact hnone x hx (by simp [sameActiveKey, he, hty, hti, hxa])

theorem foldl_insertAlert_preserves (cands l : List Alert)
    (h : ActiveKeyUnique l) : ActiveKeyUnique (cands.foldl insertAlert l) := by
  induction cands generalizing l with
  | nil => exact h
  | cons c cs ih => exact ih _ (insertAlert_preserves l c h)

/-- C1: at every point after a message is handled there is at most one active
alert per (equipmentId, type, title) key: handleMessage (via checkForAlerts,
which creates an alert only when no active alert with the same key exists)
preserves the dedup invariant in this sequential model. -/
theorem handleMessage_preserves_activeKeyUnique (st : DBState) (topic : String)
    (payload : Option SensorPayload) (now : Int)
    (h : ActiveKeyUnique st.alerts) :
    ActiveKeyUnique (handleMessage st topic payload now).alerts := by
  cases payload with
  | none => exact h
  | some data =>
    simp only [handleMessage]
    split
    · exact h
    · rename_i equipment hfind
      split
      · rename_i st1 hps
        have halerts : st1.alerts = st.alerts := by
          have hgen := processSensorData_fst_alerts st ((topicParts topic).getD 1 "")
            ((topicParts topic).getD 2 "") data now
          rw [hps] at hgen
          exact hgen
        exact halerts ▸ h
      · rename_i st1 r hps
        have halerts : st1.alerts = st.alerts := by
          have hgen := processSensorData_fst_alerts st ((topicParts topic).getD 1 "")
            ((topicParts topic).getD 2 "") data now
          rw [hps] at hgen
          exact hgen
        show ActiveKeyUnique (checkForAlerts st1 equipment r).alerts
        unfold checkForAlerts
        exact foldl_insertAlert_preserves _ _ (halerts ▸ h)

/-- C1 witness: the invariant holds of a state already containing an active
high-temperature alert, and still holds after a message that fires the same
rule again. -/
theorem handleMessage_preserves_activeKeyUnique_witness :
    ActiveKeyUnique c1State.alerts ∧
      ActiveKeyUnique (handleMessage c1State "sensors/eq-1/temperature"
        (some (tempPayload 95 20000)) 20000).alerts :=
  ⟨by decide,
   handleMessage_preserves_activeKeyUnique c1State "sensors/eq-1/temperature"
     (some (tempPayload 95 20000)) 20000 (by decide)⟩

/-- C2 counterexample: with maxTemperature 80 and the stream
[82, 83, 81, 79, 78, 77] the first reading creates the critical temperature
alert, but after the three consecutive readings below 80 the alert is still
active and no alert with status resolved exists: the claimed transition to
resolved does not happen. -/
theorem c2_stream_never_resolves :
    (c2State.alerts.map fun a => (a.title, a.type, a.status)) =
      [("High Temperature Alert", "critical", "active")] ∧
    c2State.alerts.filter (fun a => a.status == "resolved") = [] := by
  decide

/-- C2 amended: the first reading of the stream opens an active critical
temperature alert, and the alert still has status active after the three
consecutive readings below the threshold, because the ingestion pipeline
never resolves alerts. -/
theorem c2_first_fires_then_stays_active :
    ((handleMessage c2Init "sensors/eq-1/temperature"
        (some (tempPayload 82 10000)) 10000).alerts.map
          fun a => (a.title, a.type, a.status)) =
      [("High Temperature Alert", "critical", "active")] ∧
    (c2State.alerts.map fun a => (a.title, a.type, a.status)) =
      [("High Temperature Alert", "critical", "active")] := by
  decide

/-- C3 counterexample: on a profile whose pressure band is inverted
(maxPressure 5 strictly below minPressure 10), a pressure reading exactly
equal to maxPressure does fire an alert, through the strictly-below-min
branch; the claim as universally stated over all profiles is false. -/
theorem c3_equal_max_fires_on_inverted_profile :
    invertedReading.pressure = some invertedEquip.maxPressure ∧
    candidateAlerts invertedEquip invertedReading ≠ [] := by
  decide

/-- C3 amended: comparisons are strict, so a temperature or vibration value
exactly at its max threshold fires nothing for any profile, an absent metric
fires nothing, and - provided the profile satisfies
minPressure less-or-equal maxPressure - a pressure value exactly at
maxPressure or exactly at minPressure fires nothing. -/
theorem strict_threshold_comparisons (e : Equipment) (r : SensorReading) :
    (r.temperature = some e.maxTemperature → tempAlerts e r = []) ∧
    (r.vibration = some e.maxVibration → vibAlerts e r = []) ∧
    (e.minPressure ≤ e.maxPressure → r.pressure = some e.maxPressure →
      pressureAlerts e r = []) ∧
    (e.minPressure ≤ e.maxPressure → r.pressure = some e.minPressure →
      pressureAlerts e r = []) ∧
    (r.temperature = none → tempAlerts e r = []) ∧
    (r.vibration = none → vibAlerts e r = []) ∧
    (r.pressure = none → pressureAlerts e r = []) := by
  refine ⟨?_, ?_, ?_, ?_, ?_, ?_, ?_⟩
  · intro h; simp [tempAlerts, h]
  · intro h; simp [vibAlerts, h]
  · intro hle h; simp [pressureAlerts, h, not_lt.mpr hle]
  · intro hle h; simp [pressureAlerts, h, not_lt.mpr hle]
  · intro h; simp [tempAlerts, h]
  · intro h; simp [vibAlerts, h]
  · intro h; simp [pressureAlerts, h]

/-- C3 witness: the amended theorem applied to the default profile and
concrete readings sitting exactly at each threshold, plus a reading with no
metrics. -/
theorem strict_threshold_comparisons_witness :
    tempAlerts pumpEquip atMaxTempReading = [] ∧
    vibAlerts pumpEquip atMaxVibReading = [] ∧
    pressureAlerts pumpEquip atMaxPressureReading = [] ∧
    pressureAlerts pumpEquip atMinPressureReading = [] ∧
    tempAlerts pumpEquip bareReading = [] ∧
    vibAlerts pumpEquip bareReading = [] ∧
    pressureAlerts pumpEquip bareReading = [] :=
  ⟨(strict_threshold_comparisons pumpEquip atMaxTempReading).1 rfl,
   (strict_threshold_comparisons pumpEquip atMaxVibReading).2.1 rfl,
   (strict_threshold_comparisons pumpEquip atMaxPressureReading).2.2.1
     (by decide) rfl,
   (strict_threshold_comparisons pumpEquip atMinPressureReading).2.2.2.1
     (by decide) rfl,
   (strict_threshold_comparisons pumpEquip bareReading).2.2.2.2.1 rfl,
   (strict_threshold_comparisons pumpEquip bareReading).2.2.2.2.2.1 rfl,
   (strict_threshold_comparisons pumpEquip bareReading).2.2.2.2.2.2 rfl⟩

theorem metricUpdate_not_supported (s : String) (data : SensorPayload)
    (h : s ∉ supportedSensorTypes) : metricUpdate s data = none := by
  simp only [supportedSensorTypes, List.mem_cons, List.not_mem_nil, or_false,
    not_or] at h
  obtain ⟨h1, h2, h3, h4, h5, h6⟩ := h
  simp [metricUpdate, h1, h2, h3, h4, h5, h6]

/-- C4: a message whose payload cannot be decoded as JSON (parse throws, the
catch swallows it), or whose metric-type topic segment is outside the
supported set, leaves the database state unchanged: no reading is created or
updated and no alert is created, and handleMessage is total. -/
theorem malformed_or_unknown_type_leaves_state_unchanged (st : DBState)
    (topic : String) (data : SensorPayload) (now : Int) :
    handleMessage st topic none now = st ∧
    ((topicParts topic).getD 2 "" ∉ supportedSensorTypes →
      handleMessage st topic (some data) now = st) := by
  refine ⟨rfl, ?_⟩
  intro h
  have hmu : metricUpdate ((topicParts topic).getD 2 "") data = none :=
    metricUpdate_not_supported ((topicParts topic).getD 2 "") data h
  simp only [handleMessage]
  split
  · rfl
  · simp only [processSensorData, hmu]

/-- C4 witness: a malformed payload and an unsupported metric type (acoustic)
on a state holding equipment and a stored reading; both leave it unchanged. -/
theorem malformed_or_unknown_type_witness :
    handleMessage mergeState "sensors/eq-1/acoustic" none 0 = mergeState ∧
    ("sensors/eq-1/acoustic" |> topicParts).getD 2 "" ∉ supportedSensorTypes ∧
    handleMessage mergeState "sensors/eq-1/acoustic" (some c6Payload) 0 = mergeState :=
  ⟨(malformed_or_unknown_type_leaves_state_unchanged mergeState
      "sensors/eq-1/acoustic" c6Payload 0).1,
   by decide,
   (malformed_or_unknown_type_leaves_state_unchanged mergeState
      "sensors/eq-1/acoustic" c6Payload 0).2 (by decide)⟩

/-- C5: a message naming an equipment id with no Equipment record is dropped:
the state is returned unchanged, so no reading is stored, no alert is
created, and no equipment profile is created as a side effect. -/
theorem unknown_equipment_drops_message (st : DBState) (topic : String)
    (data : SensorPayload) (now : Int)
    (h : ∀ e ∈ st.equipment, e.id ≠ (topicParts topic).getD 1 "") :
    handleMessage st topic (some data) now = st := by
  have hfind : st.equipment.find? (fun e => e.id == (topicParts topic).getD 1 "") = none :=
    List.find?_eq_none.mpr fun e he => by simpa using h e he
  simp only [handleMessage, hfind]

/-- C5 witness: a temperature message for the unknown id eq-9 on a state that
only knows eq-1 leaves the state unchanged. -/
theorem unknown_equipment_drops_message_witness :
    (∀ e ∈ mergeState.equipment,
      e.id ≠ (topicParts "sensors/eq-9/temperature").getD 1 "") ∧
    handleMessage mergeState "sensors/eq-9/temperature"
      (some (tempPayload 90 7000)) 7000 = mergeState :=
  ⟨by decide,
   unknown_equipment_drops_message mergeState "sensors/eq-9/temperature"
     (tempPayload 90 7000) 7000 (by decide)⟩

/-- C6: a single message on sensors/eq-1/pressure with value 5, on equipment
eq-1 with minPressure 10 and no pre-existing alert, produces exactly one
alert: an active warning Pressure Out of Range, and nothing else. -/
theorem low_pressure_single_warning_alert :
    ((handleMessage c2Init "sensors/eq-1/pressure" (some c6Payload) 1000).alerts.map
      fun a => (a.type, a.title, a.status)) =
      [("warning", "Pressure Out of Range", "active")] := by
  decide

theorem metricUpdate_timestamp (s : String) (data : SensorPayload)
    (upd : SensorReading → SensorReading) (h : metricUpdate s data = some upd)
    (r : SensorReading) : (upd r).timestamp = r.timestamp := by
  unfold metricUpdate at h
  repeat' split at h
  all_goals
    first
      | (injection h with h; subst h; rfl)
      | injection h

/-- C7 counterexample: a payload timestamp of exactly 0 is present, yet the
stored reading takes the ingestion time 99999: present-but-zero timestamps
are falsy in JS and fall back to ingestion time, so the claim as stated over
every present payload timestamp is false. -/
theorem c7_zero_timestamp_uses_ingestion_time :
    zeroTsPayload.timestamp = some 0 ∧
    ((processSensorData c2Init "eq-1" "temperature" zeroTsPayload 99999).2.map
      fun r => r.timestamp) = some 99999 ∧
    (99999 : Int) ≠ 0 := by
  decide

/-- C7 amended: the stored reading carries the payload timestamp when present
and nonzero (truthy) and the ingestion time otherwise; and when a stored
reading for the same equipment lies within the 5 second window of the new
timestamp, the new metric values are merged into that record by update, with
no second record created. -/
theorem reading_timestamp_and_coalescing (st : DBState) (eid s : String)
    (data : SensorPayload) (now : Int) :
    (∀ r, (processSensorData st eid s data now).2 = some r →
      r.timestamp = ingestTimestamp data now) ∧
    (∀ t, data.timestamp = some t → t ≠ 0 → ingestTimestamp data now = t) ∧
    (data.timestamp = none → ingestTimestamp data now = now) ∧
    (∀ r0, findReading st.readings eid (ingestTimestamp data now) = some r0 →
      ∀ upd, metricUpdate s data = some upd →
        (processSensorData st eid s data now).1.readings.length =
            st.readings.length ∧
        (processSensorData st eid s data now).2 =
          some (upd { r0 with equipmentId := eid,
                              timestamp := ingestTimestamp data now })) := by
  refine ⟨?_, ?_, ?_, ?_⟩
  · intro r hr
    simp only [processSensorData] at hr
    split at hr
    · exact absurd hr (by simp)
    · rename_i upd hupd
      split at hr
      · rename_i r0 hfind
        cases hr
        rw [metricUpdate_timestamp s data upd hupd]
      · rename_i hfind
        cases hr
        rw [metricUpdate_timestamp s data upd hupd]
        rfl
  · intro t ht hne
    simp [ingestTimestamp, ht, hne]
  · intro h
    simp [ingestTimestamp, h]
  · intro r0 hfind upd hupd
    refine ⟨?_, ?_⟩
    · simp only [processSensorData, hupd, hfind, List.length_map]
    · simp only [processSensorData, hupd, hfind]

/-- C7 witness: a temperature payload stamped 2000 arriving at ingestion time
500 merges into the stored reading at timestamp 1000 (inside the 5 s
window): the payload timestamp is used, the reading count is unchanged, the
result is the updated existing record, and a payload with no timestamp takes
the ingestion time. -/
theorem reading_timestamp_and_coalescing_witness :
    (processSensorData mergeState "eq-1" "temperature" mergePayload 500).2 =
      some (mergeUpd { mergeBase with equipmentId := "eq-1", timestamp := 2000 }) ∧
    (mergeUpd { mergeBase with equipmentId := "eq-1", timestamp := 2000 }).timestamp =
      ingestTimestamp mergePayload 500 ∧
    ingestTimestamp mergePayload 500 = 2000 ∧
    ingestTimestamp c6Payload 500 = 500 ∧
    (processSensorData mergeState "eq-1" "temperature" mergePayload 500).1.readings.length =
      mergeState.readings.length :=
  ⟨((reading_timestamp_and_coalescing mergeState "eq-1" "temperature" mergePayload 500).2.2.2
      mergeBase (by decide) mergeUpd rfl).2,
   (reading_timestamp_and_coalescing mergeState "eq-1" "temperature" mergePayload 500).1
     (mergeUpd { mergeBase with equipmentId := "eq-1", timestamp := 2000 })
     (((reading_timestamp_and_coalescing mergeState "eq-1" "temperature" mergePayload 500).2.2.2
        mergeBase (by decide) mergeUpd rfl).2),
   (reading_timestamp_and_coalescing mergeState "eq-1" "temperature" mergePayload 500).2.1
     2000 rfl (by decide),
   (reading_timestamp_and_coalescing mergeState "eq-1" "pressure" c6Payload 500).2.2.1 rfl,
   ((reading_timestamp_and_coalescing mergeState "eq-1" "temperature" mergePayload 500).2.2.2
      mergeBase (by decide) mergeUpd rfl).1⟩

/-- C8: the scoring function duplicated across the analytics route module and
the equipment route module is extensionally equal: both copies return the
same score on every readings list and equipment profile. -/
theorem calculateHealthScore_copies_agree (readings : List SensorReading)
    (equipment : Equipment) :
    Analytics.calculateHealthScore readings equipment =
      EquipmentRoutes.calculateHealthScore readings equipment := rfl

/-- C9: the alert checks guard each metric by JS truthiness, so a value of
exactly 0 is treated like an absent metric: a pressure of 0 with positive
minPressure fires no out-of-range alert, and a temperature or vibration of 0
never fires its alert, for every profile. -/
theorem zero_metric_value_fires_no_alert (e : Equipment) (r : SensorReading) :
    (r.pressure = some 0 → 0 < e.minPressure → pressureAlerts e r = []) ∧
    (r.temperature = some 0 → tempAlerts e r = []) ∧
    (r.vibration = some 0 → vibAlerts e r = []) := by
  refine ⟨?_, ?_, ?_⟩
  · intro h hmin; simp [pressureAlerts, h]
  · intro h; simp [tempAlerts, h]
  · intro h; simp [vibAlerts, h]

/-- C9 witness: a reading with temperature, vibration and pressure all
exactly 0, on the default profile whose minPressure 10 is positive, fires no
alert at all. -/
theorem zero_metric_value_fires_no_alert_witness :
    pressureAlerts pumpEquip zeroReading = [] ∧
    tempAlerts pumpEquip zeroReading = [] ∧
    vibAlerts pumpEquip zeroReading = [] :=
  ⟨(zero_metric_value_fires_no_alert pumpEquip zeroReading).1 rfl (by decide),
   (zero_metric_value_fires_no_alert pumpEquip zeroReading).2.1 rfl,
   (zero_metric_value_fires_no_alert pumpEquip zeroReading).2.2 rfl⟩

/-- C10: generatePredictions divides the reduce sums by the history length
with no emptiness guard, so on an empty 30 day history the averages and the
failureProbability are NaN; the function still returns riskLevel low and
confidence 85 rather than failing, for every equipment profile. -/
theorem generatePredictions_empty_history_nan_low (equipment : Equipment) (now : ℚ) :
    (EquipmentRoutes.generatePredictions [] equipment now).failureProbability = JsVal.nan ∧
    (EquipmentRoutes.generatePredictions [] equipment now).remainingUsefulLife = JsVal.nan ∧
    (EquipmentRoutes.generatePredictions [] equipment now).riskLevel = "low" ∧
    (EquipmentRoutes.generatePredictions [] equipment now).confidence = 85 :=
  ⟨rfl, rfl, rfl, rfl⟩

end PredMaint
